import Mathlib

/-!
Shallow embedding of `src/ai_camera_pipeline.py`.

Modelling conventions:
* Python floats are modelled as exact rationals (`ℚ`); the numeric literals
  `0.5` and `0.8` of the source become `1/2` and `4/5`.
* The spec's backend modes PRIMARY/SECONDARY are the source's device strings
  "CPU"/"GPU".
* The underlying gst-launch workload of `StreamProcessor.run_single_stream`
  (lines 80-106) is nondeterministic real-world behaviour; it is abstracted
  by a `WorkloadOutcome`: either the monitoring loop completes having counted
  `frame_count` iterations over `elapsed` wall-clock time, or some exception
  is raised inside the `try` block.  The detection counter of the loop is
  incremented exactly on every tenth frame, so after `frame_count` iterations
  it equals `frame_count / 10` (integer division).
* Wall-clock timestamps (the `timestamp` fields) are not modelled.
* `video_files` is assumed non-empty wherever the sweep runs (the source
  raises `ZeroDivisionError` at `video_files[i % len(video_files)]`
  otherwise; `execute` below models exactly that validation boundary).
-/

/-- Abstraction of what the spawned pipeline process and monitoring loop of
`run_single_stream` do: either the loop finishes with `frame_count`
iterations over `elapsed` seconds, or an exception with message `msg` is
raised inside the `try` block. -/
inductive WorkloadOutcome where
  | completes (frame_count : ℕ) (elapsed : ℚ)
  | raises (msg : String)
deriving DecidableEq

/-- The success-path dictionary returned by `run_single_stream`
(lines 111-120): keys `stream_id`, `device`, `target_fps`, `actual_fps`,
`frames_processed`, `detections`, `duration` (plus `success = True`,
which is the constructor tag below). -/
structure OkResult where
  stream_id : String
  device : String
  target_fps : ℚ
  actual_fps : ℚ
  frames_processed : ℕ
  detections : ℕ
  duration : ℚ
deriving DecidableEq

/-- A result dictionary of `run_single_stream`.  The failure dictionary
(lines 123-128) carries only `stream_id`, `device`, `error` and
`success = False`; the measurement keys are absent, which the two-constructor
shape records faithfully. -/
inductive StreamResult where
  | ok (r : OkResult)
  | err (stream_id device error : String)
deriving DecidableEq

/-- The `success` flag of a result dictionary. -/
def StreamResult.success : StreamResult → Bool
  | .ok _ => true
  | .err _ _ _ => false

/-- Embeds `StreamProcessor.run_single_stream` (lines 65-135).  `video_path` and
`duration` only shape the launched pipeline command and the loop bound; their
effect on the measurements is folded into `outcome`.  The function catches
every exception of the workload and converts it into a failure dictionary, so
it is total (never raises). -/
def run_single_stream (device video_path stream_id : String) (duration fps_target : ℚ)
    (outcome : WorkloadOutcome) : StreamResult :=
  match outcome with
  | .completes frame_count elapsed =>
      .ok { stream_id := stream_id
            device := device
            target_fps := fps_target
            actual_fps := if elapsed > 0 then (frame_count : ℚ) / elapsed else 0
            frames_processed := frame_count
            detections := frame_count / 10
            duration := elapsed }
  | .raises msg => .err stream_id device msg

/-- The filter `successful_streams = [r for r in stream_results if r['success']]`
(line 240).  Returns the success payloads, mirroring that only successful
dictionaries have the measurement keys. -/
def successfulStreams : List StreamResult → List OkResult
  | [] => []
  | .ok o :: rs => o :: successfulStreams rs
  | .err _ _ _ :: rs => successfulStreams rs

/-- The per-trial record appended to `self.results` (lines 246-255), minus
the wall-clock `timestamp`. -/
structure TrialRecord where
  device : String
  num_streams : ℕ
  target_fps : ℚ
  successful_streams : ℕ
  avg_fps_per_stream : ℚ
  total_fps : ℚ
  total_detections : ℕ
deriving DecidableEq

/-- Aggregation step of `benchmark_streams` (lines 240-257): a record is
built and appended only when at least one stream succeeded
(`if successful_streams:`); otherwise nothing is appended. -/
def aggregate (device : String) (num_streams : ℕ) (fps_target : ℚ)
    (stream_results : List StreamResult) : Option TrialRecord :=
  let successful := successfulStreams stream_results
  if successful.isEmpty then none
  else
    let avg_fps := (successful.map (fun r => r.actual_fps)).sum / (successful.length : ℚ)
    some { device := device
           num_streams := num_streams
           target_fps := fps_target
           successful_streams := successful.length
           avg_fps_per_stream := avg_fps
           total_fps := avg_fps * (successful.length : ℚ)
           total_detections := (successful.map (fun r => r.detections)).sum }

/-- Early-stop test of line 264:
`len(successful_streams) < num_streams * 0.5`. -/
def earlyStopB (num_streams : ℕ) (stream_results : List StreamResult) : Bool :=
  decide (((successfulStreams stream_results).length : ℚ) < (num_streams : ℚ) * (1/2))

/-- The fan-out of lines 220-237: exactly `num_streams` invocations of
`run_single_stream`, stream `i` taking `video_files[i % len(video_files)]`
round-robin, id `"stream_i"`, duration `60` and the trial's `fps_target`.
`oracle i` is the workload outcome of stream `i`. -/
def trialStreamResults (oracle : ℕ → WorkloadOutcome) (device : String) (fps_target : ℚ)
    (num_streams : ℕ) (video_files : List String) : List StreamResult :=
  (List.range num_streams).map fun i =>
    run_single_stream device (video_files.getD (i % video_files.length) "")
      ("stream_" ++ toString i) 60 fps_target (oracle i)

/-- The two exceptions the harness body raises on degenerate configuration,
before any stream work runs: `ThreadPoolExecutor(max_workers=0)` raises
`ValueError` (line 220), and `video_files[i % len(video_files)]` raises
`ZeroDivisionError` when the list is empty (line 223).  The spec groups both
under `ConfigError`. -/
inductive HarnessError where
  | valueErrorZeroWorkers
  | zeroDivisionEmptySpecs
deriving DecidableEq

/-- One trial of the Concurrency Harness (the inner body of
`benchmark_streams`, lines 219-257): validate, fan out, fan in, aggregate.
Returns the optional record that is appended to `self.results`. -/
def execute (oracle : ℕ → WorkloadOutcome) (device : String) (fps_target : ℚ)
    (num_streams : ℕ) (video_files : List String) :
    Except HarnessError (Option TrialRecord) :=
  if num_streams = 0 then .error .valueErrorZeroWorkers
  else if video_files.isEmpty then .error .zeroDivisionEmptySpecs
  else .ok (aggregate device num_streams fps_target
      (trialStreamResults oracle device fps_target num_streams video_files))

/-- The inner loop of `benchmark_streams` (lines 203-268) over a list of
concurrency levels for one `fps_target`: run the trial, append the record if
any, and `break` when the early-stop test fires.  `oracle n i` is the outcome
of stream `i` in the trial at concurrency `n`.  Returns the appended records
and the list of concurrency levels actually attempted. -/
def sweepInner (oracle : ℕ → ℕ → WorkloadOutcome) (device : String)
    (video_files : List String) (fps_target : ℚ) :
    List ℕ → List TrialRecord × List ℕ
  | [] => ([], [])
  | n :: ns =>
    let stream_results := trialStreamResults (oracle n) device fps_target n video_files
    let recs := (aggregate device n fps_target stream_results).toList
    if earlyStopB n stream_results then (recs, [n])
    else
      let rest := sweepInner oracle device video_files fps_target ns
      (recs ++ rest.1, n :: rest.2)

/-- Embeds `PerformanceBenchmark.benchmark_streams` (lines 195-268): outer loop over
`fps_targets` in order, inner loop over concurrency `1 .. max_streams`.
Returns the records appended to `self.results` and the trace of
`(fps_target, num_streams)` trials attempted. -/
def benchmark_streams (oracle : ℚ → ℕ → ℕ → WorkloadOutcome) (device : String)
    (video_files : List String) (max_streams : ℕ) :
    List ℚ → List TrialRecord × List (ℚ × ℕ)
  | [] => ([], [])
  | t :: ts =>
    let inner := sweepInner (oracle t) device video_files t (List.range' 1 max_streams)
    let rest := benchmark_streams oracle device video_files max_streams ts
    (inner.1 ++ rest.1, inner.2.map (fun n => (t, n)) ++ rest.2)

/-- Python's `max(results, key=...)` (line 289): scans left to right and
replaces the candidate only on strictly greater key, so on ties the FIRST
element in iteration (insertion) order wins. -/
def pythonMax (key : TrialRecord → ℚ) : TrialRecord → List TrialRecord → TrialRecord
  | best, [] => best
  | best, x :: xs => if key best < key x then pythonMax key x xs else pythonMax key best xs

/-- Strict lexicographic comparison of the sort key
`(x['target_fps'], x['num_streams'])` of line 292. -/
def keyLtB (a b : TrialRecord) : Bool :=
  decide (a.target_fps < b.target_fps) ||
    (decide (a.target_fps = b.target_fps) && decide (a.num_streams < b.num_streams))

/-- Stable insertion of `x` behind every already-placed element whose key is
strictly smaller, and in front of every element with an equal or larger key. -/
def sortInsert (x : TrialRecord) : List TrialRecord → List TrialRecord
  | [] => [x]
  | y :: ys => if keyLtB y x then y :: sortInsert x ys else x :: y :: ys

/-- Embeds `sorted(results, key=lambda x: (x['target_fps'], x['num_streams']))`
(line 292).  Python's sort is stable; this stable insertion sort produces the
identical ordering (equal keys keep input order). -/
def sortByKey : List TrialRecord → List TrialRecord
  | [] => []
  | r :: rs => sortInsert r (sortByKey rs)

/-- The degradation test of lines 299-300:
`curr['avg_fps_per_stream'] < prev['avg_fps_per_stream'] * 0.8` and the two
records share the same `target_fps`. -/
def dropCond (prev curr : TrialRecord) : Prop :=
  curr.avg_fps_per_stream < prev.avg_fps_per_stream * (4/5 : ℚ) ∧
    curr.target_fps = prev.target_fps

instance (p c : TrialRecord) : Decidable (dropCond p c) :=
  inferInstanceAs (Decidable (_ ∧ _))

/-- The bottleneck loop of lines 293-302 on the sorted record list: walk
adjacent pairs, return `prev['num_streams']` at the first qualifying pair,
else the initial value `max_streams`. -/
def bottleneckScan (initial : ℕ) : List TrialRecord → ℕ
  | [] => initial
  | [_] => initial
  | p :: c :: rest => if dropCond p c then p.num_streams else bottleneckScan initial (c :: rest)

/-- The per-device analysis dictionary built at lines 304-309. -/
structure DeviceAnalysis where
  max_streams : ℕ
  best_config : TrialRecord
  bottleneck_at_streams : ℕ
  total_results : ℕ
deriving DecidableEq

/-- Body of the `for device, results in ...` loop of
`find_optimal_configuration` (lines 281-309): `continue` (no entry) on the
empty partition, otherwise the analysis dictionary. -/
def analyzeDevice : List TrialRecord → Option DeviceAnalysis
  | [] => none
  | r :: rs =>
    let max_streams := rs.foldl (fun m x => max m x.num_streams) r.num_streams
    some { max_streams := max_streams
           best_config := pythonMax (fun x => x.total_fps) r rs
           bottleneck_at_streams := bottleneckScan max_streams (sortByKey (r :: rs))
           total_results := (r :: rs).length }

/-- The `analysis` mapping returned by `find_optimal_configuration`:
one optional entry per device partition. -/
structure Analysis where
  cpu : Option DeviceAnalysis
  gpu : Option DeviceAnalysis
deriving DecidableEq

/-- Embeds `PerformanceBenchmark.find_optimal_configuration` (lines 270-311):
`None` on an empty record list, else the per-device analyses of the "CPU"
and "GPU" partitions. -/
def find_optimal_configuration (results : List TrialRecord) : Option Analysis :=
  if results.isEmpty then none
  else some { cpu := analyzeDevice (results.filter (fun r => r.device == "CPU"))
              gpu := analyzeDevice (results.filter (fun r => r.device == "GPU")) }

/-! ### Shared helper lemmas -/

/-- Whether a harness call returned without raising. -/
def exceptOk : Except HarnessError (Option TrialRecord) → Bool
  | .ok _ => true
  | .error _ => false

theorem successfulStreams_length_le (rs : List StreamResult) :
    (successfulStreams rs).length ≤ rs.length := by
  induction rs with
  | nil => exact Nat.le_refl 0
  | cons r t ih =>
    cases r with
    | ok o => simpa [successfulStreams] using ih
    | err sid dev msg =>
      simp only [successfulStreams, List.length_cons]
      exact Nat.le_succ_of_le ih

theorem mem_successfulStreams {o : OkResult} {rs : List StreamResult} :
    o ∈ successfulStreams rs ↔ StreamResult.ok o ∈ rs := by
  induction rs with
  | nil => simp [successfulStreams]
  | cons r t ih =>
    cases r with
    | ok p => simp [successfulStreams, ih]
    | err sid dev msg => simp [successfulStreams, ih]

theorem successfulStreams_eq_nil {rs : List StreamResult}
    (h : ∀ r ∈ rs, r.success = false) : successfulStreams rs = [] := by
  induction rs with
  | nil => rfl
  | cons r t ih =>
    cases r with
    | ok o => exact absurd (h _ (List.mem_cons_self _ _)) (by simp [StreamResult.success])
    | err sid dev msg =>
      exact ih fun r hr => h r (List.mem_cons_of_mem _ hr)

theorem trialStreamResults_length (oracle : ℕ → WorkloadOutcome) (device : String)
    (fps_target : ℚ) (num_streams : ℕ) (video_files : List String) :
    (trialStreamResults oracle device fps_target num_streams video_files).length
      = num_streams := by
  simp [trialStreamResults]

theorem actual_fps_nonneg {o : OkResult} {oracle : ℕ → WorkloadOutcome} {device : String}
    {fps_target : ℚ} {num_streams : ℕ} {video_files : List String}
    (h : o ∈ successfulStreams
        (trialStreamResults oracle device fps_target num_streams video_files)) :
    0 ≤ o.actual_fps := by
  rw [mem_successfulStreams] at h
  simp only [trialStreamResults, List.mem_map] at h
  obtain ⟨i, _, hi⟩ := h
  cases houtcome : oracle i with
  | completes frame_count elapsed =>
    rw [houtcome] at hi
    simp only [run_single_stream, StreamResult.ok.injEq] at hi
    rw [← hi]
    by_cases hpos : elapsed > 0
    · simp only [if_pos hpos]
      exact div_nonneg (Nat.cast_nonneg _) (le_of_lt hpos)
    · simp [if_neg hpos]
  | raises msg =>
    rw [houtcome] at hi
    simp [run_single_stream] at hi

/-! ### Claim C9 -/

/-- Claim C9: in the success path of the Workload Invoker, the returned
`actual_fps` (the spec's achieved_rate) equals `frames_processed / elapsed`
when `elapsed > 0` and equals `0` when `elapsed ≤ 0`, so the computation
never divides by zero and the achieved rate is always nonnegative. -/
theorem claim9_rate_division_guard (device video_path stream_id : String)
    (duration fps_target : ℚ) (frame_count : ℕ) (elapsed : ℚ) :
    (0 < elapsed →
      run_single_stream device video_path stream_id duration fps_target
          (.completes frame_count elapsed)
        = .ok { stream_id := stream_id, device := device, target_fps := fps_target,
                actual_fps := (frame_count : ℚ) / elapsed,
                frames_processed := frame_count, detections := frame_count / 10,
                duration := elapsed })
  ∧ (elapsed ≤ 0 →
      run_single_stream device video_path stream_id duration fps_target
          (.completes frame_count elapsed)
        = .ok { stream_id := stream_id, device := device, target_fps := fps_target,
                actual_fps := 0,
                frames_processed := frame_count, detections := frame_count / 10,
                duration := elapsed })
  ∧ (∀ o : OkResult,
      run_single_stream device video_path stream_id duration fps_target
          (.completes frame_count elapsed) = .ok o → 0 ≤ o.actual_fps) := by
  refine ⟨fun h => ?_, fun h => ?_, fun o ho => ?_⟩
  · simp [run_single_stream, h]
  · simp [run_single_stream, not_lt.mpr h]
  · simp only [run_single_stream, StreamResult.ok.injEq] at ho
    rw [← ho]
    by_cases hpos : elapsed > 0
    · simp only [if_pos hpos]
      exact div_nonneg (Nat.cast_nonneg _) (le_of_lt hpos)
    · simp [if_neg hpos]

/-- Witness for C9 at a concrete input: 10 frames over 2 seconds give rate 5. -/
theorem claim9_witness :
    run_single_stream "CPU" "v.mp4" "stream_0" 60 30 (.completes 10 2)
      = .ok { stream_id := "stream_0", device := "CPU", target_fps := 30,
              actual_fps := 5, frames_processed := 10, detections := 1,
              duration := 2 } := by
  have h := (claim9_rate_division_guard "CPU" "v.mp4" "stream_0" 60 30 10 2).1 (by norm_num)
  rw [h]
  norm_num

/-! ### Claim C10 -/

/-- Claim C10: when the underlying workload raises an exception,
`run_single_stream` returns (never raises) a failure record carrying only
`stream_id`, `device`, `error` and `success=false` — the `err` constructor
has no measurement fields, so `achieved_rate`, `frames_processed`,
`detections` and `duration` are absent — and the harness's
`successfulStreams` filter drops such a record, so consumers reading the
measurement fields never see it. -/
theorem claim10_failure_shape (device video_path stream_id : String)
    (duration fps_target : ℚ) (msg : String) :
    run_single_stream device video_path stream_id duration fps_target (.raises msg)
      = .err stream_id device msg
  ∧ (run_single_stream device video_path stream_id duration fps_target
        (.raises msg)).success = false
  ∧ ∀ rs : List StreamResult,
      successfulStreams
          (run_single_stream device video_path stream_id duration fps_target
            (.raises msg) :: rs)
        = successfulStreams rs :=
  ⟨rfl, rfl, fun _ => rfl⟩

/-- Witness for C10 at a concrete input. -/
theorem claim10_witness :
    run_single_stream "CPU" "v.mp4" "stream_1" 60 30 (.raises "backend crashed")
      = .err "stream_1" "CPU" "backend crashed"
  ∧ successfulStreams
        [run_single_stream "CPU" "v.mp4" "stream_1" 60 30 (.raises "backend crashed")]
      = [] :=
  ⟨(claim10_failure_shape "CPU" "v.mp4" "stream_1" 60 30 "backend crashed").1,
   (claim10_failure_shape "CPU" "v.mp4" "stream_1" 60 30 "backend crashed").2.2 []⟩

/-! ### Claim C4 -/

/-- Claim C4: calling the harness with `concurrency = 0` or with empty
`stream_specs` fails with the configuration error (the source's `ValueError`
from `ThreadPoolExecutor(max_workers=0)`, resp. `ZeroDivisionError` from the
round-robin index; the spec's `ConfigError`) before any trial work is
attempted — the error is the same for every workload oracle — and these are
the only failures that propagate: on any valid input the call returns
normally. -/
theorem claim4_config_errors (oracle : ℕ → WorkloadOutcome) (device : String)
    (fps_target : ℚ) (num_streams : ℕ) (video_files : List String) :
    (num_streams = 0 →
      execute oracle device fps_target num_streams video_files
        = .error .valueErrorZeroWorkers)
  ∧ (num_streams ≠ 0 → video_files = [] →
      execute oracle device fps_target num_streams video_files
        = .error .zeroDivisionEmptySpecs)
  ∧ (num_streams ≠ 0 → video_files ≠ [] →
      exceptOk (execute oracle device fps_target num_streams video_files) = true) := by
  refine ⟨fun h0 => ?_, fun h0 hv => ?_, fun h0 hv => ?_⟩
  · simp [execute, h0]
  · simp [execute, h0, hv]
  · simp [execute, h0, hv, exceptOk]

/-- Witness for C4: both degenerate inputs fail, a valid input succeeds. -/
theorem claim4_witness :
    execute (fun _ => .completes 60 2) "CPU" 30 0 ["v.mp4"]
      = .error .valueErrorZeroWorkers
  ∧ execute (fun _ => .completes 60 2) "CPU" 30 3 []
      = .error .zeroDivisionEmptySpecs
  ∧ exceptOk (execute (fun _ => .completes 60 2) "CPU" 30 1 ["v.mp4"]) = true :=
  ⟨(claim4_config_errors (fun _ => .completes 60 2) "CPU" 30 0 ["v.mp4"]).1 rfl,
   (claim4_config_errors (fun _ => .completes 60 2) "CPU" 30 3 []).2.1 (by norm_num) rfl,
   (claim4_config_errors (fun _ => .completes 60 2) "CPU" 30 1 ["v.mp4"]).2.2
     (by norm_num) (by simp)⟩

/-! ### Claim C6 -/

/-- Claim C6: for every trial whose set of successful stream results is
non-empty, the produced record satisfies
`avg_rate_per_stream = mean(achieved_rate over successful)`,
`aggregate_rate = avg_rate_per_stream * len(successful)` and
`total_events = sum(events_detected over successful)`. -/
theorem claim6_aggregation (device : String) (num_streams : ℕ) (fps_target : ℚ)
    (stream_results : List StreamResult) (rec : TrialRecord)
    (h : aggregate device num_streams fps_target stream_results = some rec) :
    rec.successful_streams = (successfulStreams stream_results).length
  ∧ rec.avg_fps_per_stream
      = ((successfulStreams stream_results).map (fun r => r.actual_fps)).sum
          / ((successfulStreams stream_results).length : ℚ)
  ∧ rec.total_fps = rec.avg_fps_per_stream * (rec.successful_streams : ℚ)
  ∧ rec.total_detections
      = ((successfulStreams stream_results).map (fun r => r.detections)).sum := by
  by_cases hempty : (successfulStreams stream_results).isEmpty
  · simp [aggregate, hempty] at h
  · simp only [aggregate, hempty, Bool.false_eq_true, if_false, Option.some.injEq] at h
    subst h
    exact ⟨rfl, rfl, rfl, rfl⟩

/-- Scenario A inputs: four successful streams with achieved rates
10, 12, 9, 11 (and 3 detections each). -/
def scenarioAResult (sid : String) (rate : ℚ) : StreamResult :=
  .ok { stream_id := sid, device := "CPU", target_fps := 30, actual_fps := rate,
        frames_processed := 0, detections := 3, duration := 1 }

def scenarioAResults : List StreamResult :=
  [scenarioAResult "stream_0" 10, scenarioAResult "stream_1" 12,
   scenarioAResult "stream_2" 9, scenarioAResult "stream_3" 11]

def scenarioARecord : TrialRecord :=
  { device := "CPU", num_streams := 4, target_fps := 30, successful_streams := 4,
    avg_fps_per_stream := 21/2, total_fps := 42, total_detections := 12 }

/-- Witness for C6, the spec's Scenario A: achieved rates [10,12,9,11] give
`avg = 10.5`, `aggregate_rate = 42.0` and `total_events` the sum of the
inputs. -/
theorem claim6_witness :
    aggregate "CPU" 4 30 scenarioAResults = some scenarioARecord
  ∧ scenarioARecord.avg_fps_per_stream
      = ((successfulStreams scenarioAResults).map (fun r => r.actual_fps)).sum
          / ((successfulStreams scenarioAResults).length : ℚ)
  ∧ scenarioARecord.avg_fps_per_stream = 21/2
  ∧ scenarioARecord.total_fps = 42
  ∧ scenarioARecord.total_detections = 3 + 3 + 3 + 3 := by
  have hagg : aggregate "CPU" 4 30 scenarioAResults = some scenarioARecord := by
    norm_num [aggregate, successfulStreams, scenarioAResults, scenarioAResult,
      scenarioARecord]
  refine ⟨hagg, (claim6_aggregation "CPU" 4 30 scenarioAResults scenarioARecord hagg).2.1,
    by norm_num [scenarioARecord], by norm_num [scenarioARecord],
    by norm_num [scenarioARecord]⟩

/-! ### Claim C7 -/

/-- Claim C7: the analyzer produces no report entry for a backend mode with
zero records — with records of only one device the other device's entry is
`none`, and on an entirely empty record list the whole result is the explicit
absent value `none` — and in neither case does it error or fabricate a
report. -/
theorem claim7_absent_partitions (records : List TrialRecord) :
    (records = [] → find_optimal_configuration records = none)
  ∧ (records ≠ [] → (∀ r ∈ records, r.device ≠ "CPU") →
      ∃ a, find_optimal_configuration records = some a ∧ a.cpu = none)
  ∧ (records ≠ [] → (∀ r ∈ records, r.device ≠ "GPU") →
      ∃ a, find_optimal_configuration records = some a ∧ a.gpu = none) := by
  refine ⟨fun h0 => ?_, fun h0 hdev => ?_, fun h0 hdev => ?_⟩
  · simp [find_optimal_configuration, h0]
  · have hfilter : records.filter (fun r => r.device == "CPU") = [] := by
      simp only [List.filter_eq_nil_iff]
      intro r hr
      simpa using hdev r hr
    refine ⟨{ cpu := analyzeDevice (records.filter (fun r => r.device == "CPU")),
              gpu := analyzeDevice (records.filter (fun r => r.device == "GPU")) },
      by simp [find_optimal_configuration, h0], ?_⟩
    show analyzeDevice (records.filter (fun r => r.device == "CPU")) = none
    rw [hfilter]
    rfl
  · have hfilter : records.filter (fun r => r.device == "GPU") = [] := by
      simp only [List.filter_eq_nil_iff]
      intro r hr
      simpa using hdev r hr
    refine ⟨{ cpu := analyzeDevice (records.filter (fun r => r.device == "CPU")),
              gpu := analyzeDevice (records.filter (fun r => r.device == "GPU")) },
      by simp [find_optimal_configuration, h0], ?_⟩
    show analyzeDevice (records.filter (fun r => r.device == "GPU")) = none
    rw [hfilter]
    rfl

/-- A single SECONDARY-mode (GPU) record, for the C7 witness. -/
def secondaryOnlyRecord : TrialRecord :=
  { device := "GPU", num_streams := 1, target_fps := 30, successful_streams := 1,
    avg_fps_per_stream := 30, total_fps := 30, total_detections := 6 }

/-- Witness for C7, the spec's Scenario D: records of only the SECONDARY
(GPU) mode give an absent PRIMARY (CPU) report, and the empty record list
gives the explicit absent result. -/
theorem claim7_witness :
    (find_optimal_configuration [secondaryOnlyRecord]).map (fun a => a.cpu)
      = some none
  ∧ find_optimal_configuration [] = none := by
  constructor
  · obtain ⟨a, ha, hcpu⟩ :=
      (claim7_absent_partitions [secondaryOnlyRecord]).2.1 (by simp)
        (by intro r hr
            simp only [List.mem_singleton] at hr
            subst hr
            decide)
    rw [ha]
    simp [hcpu]
  · exact (claim7_absent_partitions []).1 rfl

/-! ### Claim C1 -/

/-- Counterexample to C1: with two launched streams that both fail, the
harness produces NO trial record at all (`.ok none`), and a one-target sweep
over this workload attempts the trial at concurrency 1 yet appends nothing to
the record log — contradicting the claim that a TrialRecord with
`successful_count = 0` is appended. -/
theorem claim1_counterexample :
    execute (fun _ => .raises "boom") "CPU" 30 2 ["v.mp4"] = .ok none
  ∧ (benchmark_streams (fun _ _ _ => .raises "boom") "CPU" ["v.mp4"] 2 [30]).1 = []
  ∧ (benchmark_streams (fun _ _ _ => .raises "boom") "CPU" ["v.mp4"] 2 [30]).2
      = [(30, 1)] := by
  refine ⟨?_, ?_, ?_⟩
  · norm_num [execute, aggregate, trialStreamResults, run_single_stream,
      successfulStreams, List.range_succ]
  · norm_num [benchmark_streams, sweepInner, trialStreamResults, run_single_stream,
      aggregate, successfulStreams, earlyStopB, List.range', List.range_succ]
  · norm_num [benchmark_streams, sweepInner, trialStreamResults, run_single_stream,
      aggregate, successfulStreams, earlyStopB, List.range', List.range_succ]

/-- Amended C1: for every valid trial in which every launched stream fails,
the harness produces NO trial record (the record log is left unchanged — the
source builds a record only under `if successful_streams:`), and the
early-stop test of the sweep still fires for that trial. -/
theorem claim1_all_fail_trial (oracle : ℕ → WorkloadOutcome) (device : String)
    (fps_target : ℚ) (num_streams : ℕ) (video_files : List String)
    (hn : num_streams ≠ 0) (hv : video_files ≠ [])
    (hfail : ∀ i, ∃ msg, oracle i = .raises msg) :
    execute oracle device fps_target num_streams video_files = .ok none
  ∧ earlyStopB num_streams
      (trialStreamResults oracle device fps_target num_streams video_files)
      = true := by
  have hnil : successfulStreams
      (trialStreamResults oracle device fps_target num_streams video_files) = [] := by
    apply successfulStreams_eq_nil
    intro r hr
    simp only [trialStreamResults, List.mem_map] at hr
    obtain ⟨i, _, hi⟩ := hr
    obtain ⟨msg, hmsg⟩ := hfail i
    rw [← hi, hmsg]
    rfl
  constructor
  · simp [execute, hn, hv, aggregate, hnil]
  · simp only [earlyStopB, hnil, List.length_nil, Nat.cast_zero, decide_eq_true_eq]
    have hpos : (0 : ℚ) < (num_streams : ℚ) :=
      Nat.cast_pos.mpr (Nat.pos_of_ne_zero hn)
    nlinarith

/-- Witness for amended C1 at a concrete all-failing trial. -/
theorem claim1_witness :
    execute (fun _ => .raises "boom") "CPU" 30 3 ["v.mp4"] = .ok none
  ∧ earlyStopB 3
      (trialStreamResults (fun _ => .raises "boom") "CPU" 30 3 ["v.mp4"]) = true :=
  claim1_all_fail_trial (fun _ => .raises "boom") "CPU" 30 3 ["v.mp4"]
    (by norm_num) (by simp) (fun i => ⟨"boom", rfl⟩)

/-! ### Claim C8 -/

/-- Claim C8: every trial record produced by a valid harness call satisfies
`successful_count ≤ concurrency` (the successful results are a sub-selection
of the exactly-`concurrency` launched streams) and `aggregate_rate ≥ 0`. -/
theorem claim8_record_invariant (oracle : ℕ → WorkloadOutcome) (device : String)
    (fps_target : ℚ) (num_streams : ℕ) (video_files : List String)
    (rec : TrialRecord)
    (h : execute oracle device fps_target num_streams video_files = .ok (some rec)) :
    rec.successful_streams ≤ num_streams ∧ 0 ≤ rec.total_fps := by
  by_cases hn : num_streams = 0
  · simp [execute, hn] at h
  by_cases hv : video_files.isEmpty
  · simp [execute, hn, hv] at h
  simp only [execute, hn, hv, Bool.false_eq_true, if_false, Except.ok.injEq] at h
  set rs := trialStreamResults oracle device fps_target num_streams video_files with hrs
  by_cases hempty : (successfulStreams rs).isEmpty
  · simp [aggregate, hempty] at h
  simp only [aggregate, hempty, Bool.false_eq_true, if_false, Option.some.injEq] at h
  subst h
  constructor
  · calc (successfulStreams rs).length ≤ rs.length := successfulStreams_length_le rs
      _ = num_streams := trialStreamResults_length oracle device fps_target
            num_streams video_files
  · show 0 ≤ ((successfulStreams rs).map (fun r => r.actual_fps)).sum
        / ((successfulStreams rs).length : ℚ) * ((successfulStreams rs).length : ℚ)
    have hsum : 0 ≤ ((successfulStreams rs).map (fun r => r.actual_fps)).sum := by
      apply List.sum_nonneg
      intro x hx
      simp only [List.mem_map] at hx
      obtain ⟨o, ho, hox⟩ := hx
      rw [← hox]
      exact actual_fps_nonneg ho
    exact mul_nonneg (div_nonneg hsum (Nat.cast_nonneg _)) (Nat.cast_nonneg _)

/-- Witness for C8: a concrete valid trial (2 streams, both succeeding at
rate 30) yields a record with 2 ≤ 2 successes and nonnegative rate. -/
theorem claim8_witness :
    execute (fun _ => .completes 60 2) "CPU" 30 2 ["v.mp4"]
      = .ok (some { device := "CPU", num_streams := 2, target_fps := 30,
                    successful_streams := 2, avg_fps_per_stream := 30,
                    total_fps := 60, total_detections := 12 })
  ∧ (2 : ℕ) ≤ 2 ∧ (0 : ℚ) ≤ 60 := by
  have hexec : execute (fun _ => .completes 60 2) "CPU" 30 2 ["v.mp4"]
      = .ok (some { device := "CPU", num_streams := 2, target_fps := 30,
                    successful_streams := 2, avg_fps_per_stream := 30,
                    total_fps := 60, total_detections := 12 }) := by
    norm_num [execute, aggregate, trialStreamResults, run_single_stream,
      successfulStreams, List.range_succ]
  have h := claim8_record_invariant (fun _ => .completes 60 2) "CPU" 30 2 ["v.mp4"]
    { device := "CPU", num_streams := 2, target_fps := 30, successful_streams := 2,
      avg_fps_per_stream := 30, total_fps := 60, total_detections := 12 } hexec
  exact ⟨hexec, h.1, h.2⟩

/-! ### Claim C3 -/

theorem pythonMax_split (key : TrialRecord → ℚ) (xs : List TrialRecord) :
    ∀ init : TrialRecord,
      ∃ l₁ l₂,
        init :: xs = l₁ ++ pythonMax key init xs :: l₂
        ∧ (∀ y ∈ l₁, key y < key (pythonMax key init xs))
        ∧ (∀ y ∈ init :: xs, key y ≤ key (pythonMax key init xs)) := by
  induction xs with
  | nil =>
    intro init
    refine ⟨[], [], rfl, by simp, ?_⟩
    intro y hy
    simp only [List.mem_singleton] at hy
    subst hy
    exact le_refl _
  | cons x t ih =>
    intro init
    by_cases hlt : key init < key x
    · obtain ⟨l₁, l₂, hsplit, hl₁, hle⟩ := ih x
      have hxle : key x ≤ key (pythonMax key x t) := hle x (List.mem_cons_self _ _)
      refine ⟨init :: l₁, l₂, ?_, ?_, ?_⟩
      · simp only [pythonMax, if_pos hlt, List.cons_append, List.cons.injEq, true_and]
        exact hsplit
      · intro y hy
        simp only [pythonMax, if_pos hlt]
        rcases List.mem_cons.mp hy with hy | hy
        · subst hy
          exact lt_of_lt_of_le hlt hxle
        · exact hl₁ y hy
      · intro y hy
        simp only [pythonMax, if_pos hlt]
        rcases List.mem_cons.mp hy with hy | hy
        · subst hy
          exact le_of_lt (lt_of_lt_of_le hlt hxle)
        · exact hle y hy
    · obtain ⟨l₁, l₂, hsplit, hl₁, hle⟩ := ih init
      have hxle : key x ≤ key (pythonMax key init t) :=
        le_trans (not_lt.mp hlt) (hle init (List.mem_cons_self _ _))
      cases l₁ with
      | nil =>
        simp only [List.nil_append, List.cons.injEq] at hsplit
        refine ⟨[], x :: t, ?_, by simp, ?_⟩
        · simp only [pythonMax, if_neg hlt, List.nil_append, List.cons.injEq]
          exact ⟨hsplit.1, trivial⟩
        · intro y hy
          simp only [pythonMax, if_neg hlt]
          rcases List.mem_cons.mp hy with hy | hy
          · rw [hy]
            exact hle init (List.mem_cons_self _ _)
          · rcases List.mem_cons.mp hy with hy | hy
            · subst hy
              exact hxle
            · exact hle y (List.mem_cons_of_mem _ hy)
      | cons z l₁' =>
        simp only [List.cons_append, List.cons.injEq] at hsplit
        obtain ⟨hz, ht⟩ := hsplit
        subst hz
        have hinitlt : key init < key (pythonMax key init t) :=
          hl₁ init (List.mem_cons_self _ _)
        refine ⟨init :: x :: l₁', l₂, ?_, ?_, ?_⟩
        · simp only [pythonMax, if_neg hlt, List.cons_append, List.cons.injEq,
            true_and]
          exact ht
        · intro y hy
          simp only [pythonMax, if_neg hlt]
          rcases List.mem_cons.mp hy with hy | hy
          · subst hy
            exact hinitlt
          · rcases List.mem_cons.mp hy with hy | hy
            · subst hy
              exact lt_of_le_of_lt (not_lt.mp hlt) hinitlt
            · exact hl₁ y (List.mem_cons_of_mem _ hy)
        · intro y hy
          simp only [pythonMax, if_neg hlt]
          rcases List.mem_cons.mp hy with hy | hy
          · subst hy
            exact le_of_lt hinitlt
          · rcases List.mem_cons.mp hy with hy | hy
            · subst hy
              exact hxle
            · exact hle y (List.mem_cons_of_mem _ hy)

/-- Counterexample to C3: two "CPU" records tie at `total_fps = 50`.  In the
stable sort order by `(target_rate, concurrency)` the record with target 15
comes first, but the analyzer's `best_config` is the OTHER record — Python's
`max` runs over the records in INSERTION order, not sorted order — so the
claimed tie-break is wrong. -/
theorem claim3_counterexample :
    (analyzeDevice [
        { device := "CPU", num_streams := 2, target_fps := 30,
          successful_streams := 2, avg_fps_per_stream := 25, total_fps := 50,
          total_detections := 0 },
        { device := "CPU", num_streams := 1, target_fps := 15,
          successful_streams := 1, avg_fps_per_stream := 50, total_fps := 50,
          total_detections := 0 }]).map (fun a => a.best_config)
      = some { device := "CPU", num_streams := 2, target_fps := 30,
               successful_streams := 2, avg_fps_per_stream := 25, total_fps := 50,
               total_detections := 0 }
  ∧ sortByKey [
        { device := "CPU", num_streams := 2, target_fps := 30,
          successful_streams := 2, avg_fps_per_stream := 25, total_fps := 50,
          total_detections := 0 },
        { device := "CPU", num_streams := 1, target_fps := 15,
          successful_streams := 1, avg_fps_per_stream := 50, total_fps := 50,
          total_detections := 0 }]
      = [{ device := "CPU", num_streams := 1, target_fps := 15,
           successful_streams := 1, avg_fps_per_stream := 50, total_fps := 50,
           total_detections := 0 },
         { device := "CPU", num_streams := 2, target_fps := 30,
           successful_streams := 2, avg_fps_per_stream := 25, total_fps := 50,
           total_detections := 0 }]
  ∧ ({ device := "CPU", num_streams := 2, target_fps := 30,
       successful_streams := 2, avg_fps_per_stream := 25, total_fps := 50,
       total_detections := 0 } : TrialRecord)
      ≠ { device := "CPU", num_streams := 1, target_fps := 15,
          successful_streams := 1, avg_fps_per_stream := 50, total_fps := 50,
          total_detections := 0 } := by
  refine ⟨?_, ?_, ?_⟩
  · norm_num [analyzeDevice, pythonMax]
  · norm_num [sortByKey, sortInsert, keyLtB]
  · simp [TrialRecord.mk.injEq]

/-- Amended C3: for every non-empty partition the analyzer's `best_trial` is
a record of maximal `aggregate_rate`, and ties are broken by FIRST OCCURRENCE
IN THE INPUT (insertion) ORDER of the record list — every record strictly
before `best_trial` in the input has strictly smaller `aggregate_rate` — not
by the `(target_rate, concurrency)` sort order. -/
theorem claim3_best_trial (records : List TrialRecord) (a : DeviceAnalysis)
    (ha : analyzeDevice records = some a) :
    (∀ r ∈ records, r.total_fps ≤ a.best_config.total_fps)
  ∧ ∃ l₁ l₂,
      records = l₁ ++ a.best_config :: l₂
      ∧ ∀ y ∈ l₁, y.total_fps < a.best_config.total_fps := by
  cases records with
  | nil => simp [analyzeDevice] at ha
  | cons r rs =>
    simp only [analyzeDevice, Option.some.injEq] at ha
    subst ha
    obtain ⟨l₁, l₂, hsplit, hl₁, hle⟩ := pythonMax_split (fun x => x.total_fps) rs r
    exact ⟨hle, l₁, l₂, hsplit, hl₁⟩

/-- First of three records of the amended-C3 witness; ties the second at
`total_fps = 50` and comes first in insertion order. -/
def tieFirstRecord : TrialRecord :=
  { device := "CPU", num_streams := 2, target_fps := 30, successful_streams := 2,
    avg_fps_per_stream := 25, total_fps := 50, total_detections := 1 }

def tieSecondRecord : TrialRecord :=
  { device := "CPU", num_streams := 1, target_fps := 15, successful_streams := 1,
    avg_fps_per_stream := 50, total_fps := 50, total_detections := 2 }

def tieThirdRecord : TrialRecord :=
  { device := "CPU", num_streams := 3, target_fps := 30, successful_streams := 3,
    avg_fps_per_stream := 40/3, total_fps := 40, total_detections := 3 }

/-- Witness for amended C3: totals [50, 50, 40] with the two 50s tying —
`best_config` is the FIRST 50-record in insertion order, so the split of the
input list around it has an empty strictly-smaller prefix. -/
theorem claim3_witness :
    [tieFirstRecord, tieSecondRecord, tieThirdRecord]
      = ([] : List TrialRecord)
          ++ tieFirstRecord :: [tieSecondRecord, tieThirdRecord] := by
  have ha : analyzeDevice [tieFirstRecord, tieSecondRecord, tieThirdRecord]
      = some { max_streams := 3, best_config := tieFirstRecord,
               bottleneck_at_streams := 2, total_results := 3 } := by
    norm_num [analyzeDevice, pythonMax, sortByKey, sortInsert, keyLtB,
      bottleneckScan, dropCond, tieFirstRecord, tieSecondRecord, tieThirdRecord]
  obtain ⟨hle, l₁, l₂, hsplit, hl₁⟩ := claim3_best_trial _ _ ha
  rcases l₁ with _ | ⟨w, l₁'⟩
  · simp
  · exfalso
    have hw : w ∈ w :: l₁' := List.mem_cons_self _ _
    have hlt := hl₁ w hw
    have hfirst : w = tieFirstRecord := by
      have hhead := congrArg List.head? hsplit
      simp only [List.head?_cons, List.cons_append, Option.some.injEq] at hhead
      exact hhead.symm
    rw [hfirst] at hlt
    exact absurd hlt (by norm_num [tieFirstRecord])

/-! ### Claim C2 -/

theorem bottleneckScan_of_chain (initial : ℕ) (l : List TrialRecord)
    (h : List.Chain' (fun x y => ¬ dropCond x y) l) :
    bottleneckScan initial l = initial := by
  induction l with
  | nil => rfl
  | cons x t ih =>
    cases t with
    | nil => rfl
    | cons y t2 =>
      rw [List.chain'_cons] at h
      show (if dropCond x y then x.num_streams else bottleneckScan initial (y :: t2))
          = initial
      rw [if_neg h.1]
      exact ih h.2

theorem bottleneckScan_first_drop (initial : ℕ) (pre : List TrialRecord)
    (p c : TrialRecord) (post : List TrialRecord)
    (hdrop : dropCond p c)
    (hchain : List.Chain' (fun x y => ¬ dropCond x y) (pre ++ [p])) :
    bottleneckScan initial (pre ++ p :: c :: post) = p.num_streams := by
  induction pre with
  | nil =>
    show (if dropCond p c then p.num_streams else bottleneckScan initial (c :: post))
        = p.num_streams
    rw [if_pos hdrop]
  | cons x pre2 ih =>
    cases pre2 with
    | nil =>
      rw [List.cons_append, List.nil_append, List.chain'_cons] at hchain
      show (if dropCond x p then x.num_streams
            else bottleneckScan initial (p :: c :: post)) = p.num_streams
      rw [if_neg hchain.1]
      exact ih hchain.2
    | cons y pre3 =>
      rw [List.cons_append, List.cons_append, List.chain'_cons] at hchain
      show (if dropCond x y then x.num_streams
            else bottleneckScan initial ((y :: pre3) ++ p :: c :: post))
          = p.num_streams
      rw [if_neg hchain.1]
      have hchain2 : List.Chain' (fun a b => ¬ dropCond a b) ((y :: pre3) ++ [p]) := by
        rw [List.cons_append]
        exact hchain.2
      exact ih hchain2

/-- Claim C2: for every non-empty partition, after the stable sort by
`(target_rate, concurrency)` ascending, if some split of the sorted list
exhibits a first adjacent qualifying pair — `dropCond p c` holds (same
target_rate and `curr.avg < prev.avg * 0.8`) while no earlier adjacent pair
qualifies — then `degradation_onset_concurrency = p.num_streams` (the
previous record's concurrency); and if no adjacent pair qualifies at all,
`degradation_onset_concurrency = max_concurrency_tested`. -/
theorem claim2_degradation_onset (records : List TrialRecord) (a : DeviceAnalysis)
    (ha : analyzeDevice records = some a) :
    (∀ (pre : List TrialRecord) (p c : TrialRecord) (post : List TrialRecord),
      sortByKey records = pre ++ p :: c :: post →
      dropCond p c →
      List.Chain' (fun x y => ¬ dropCond x y) (pre ++ [p]) →
      a.bottleneck_at_streams = p.num_streams)
  ∧ (List.Chain' (fun x y => ¬ dropCond x y) (sortByKey records) →
      a.bottleneck_at_streams = a.max_streams) := by
  cases records with
  | nil => simp [analyzeDevice] at ha
  | cons r rs =>
    simp only [analyzeDevice, Option.some.injEq] at ha
    subst ha
    constructor
    · intro pre p c post hsort hdrop hchain
      show bottleneckScan (rs.foldl (fun m x => max m x.num_streams) r.num_streams)
          (sortByKey (r :: rs)) = p.num_streams
      rw [hsort]
      exact bottleneckScan_first_drop _ pre p c post hdrop hchain
    · intro hchain
      show bottleneckScan (rs.foldl (fun m x => max m x.num_streams) r.num_streams)
          (sortByKey (r :: rs))
        = rs.foldl (fun m x => max m x.num_streams) r.num_streams
      exact bottleneckScan_of_chain _ _ hchain

/-- The four Scenario-C records: one target rate, concurrency 1, 2, 4, 8 with
per-stream averages 30, 29, 28, 15. -/
def scenarioCRecord (n : ℕ) (avg : ℚ) : TrialRecord :=
  { device := "CPU", num_streams := n, target_fps := 30, successful_streams := n,
    avg_fps_per_stream := avg, total_fps := avg * n, total_detections := 0 }

def scenarioCRecords : List TrialRecord :=
  [scenarioCRecord 1 30, scenarioCRecord 2 29, scenarioCRecord 4 28,
   scenarioCRecord 8 15]

/-- Witness for C2, the spec's Scenario C: averages [30,29,28,15] at
concurrency [1,2,4,8] give degradation onset 4 (28 to 15 is a more than 20
percent drop, and no earlier adjacent pair drops). -/
theorem claim2_witness :
    (analyzeDevice scenarioCRecords).map (fun a => a.bottleneck_at_streams)
      = some 4 := by
  have ha : analyzeDevice scenarioCRecords
      = some { max_streams := 8,
               best_config := scenarioCRecord 8 15,
               bottleneck_at_streams :=
                 bottleneckScan 8 (sortByKey scenarioCRecords),
               total_results := 4 } := by
    norm_num [analyzeDevice, scenarioCRecords, scenarioCRecord, pythonMax]
  have hsort : sortByKey scenarioCRecords
      = [scenarioCRecord 1 30, scenarioCRecord 2 29]
          ++ scenarioCRecord 4 28 :: scenarioCRecord 8 15 :: [] := by
    norm_num [sortByKey, sortInsert, keyLtB, scenarioCRecords, scenarioCRecord]
  have hdrop : dropCond (scenarioCRecord 4 28) (scenarioCRecord 8 15) := by
    refine ⟨?_, rfl⟩
    norm_num [scenarioCRecord]
  have hchain : List.Chain' (fun x y => ¬ dropCond x y)
      ([scenarioCRecord 1 30, scenarioCRecord 2 29] ++ [scenarioCRecord 4 28]) := by
    simp only [List.cons_append, List.nil_append, List.chain'_cons,
      List.chain'_singleton, and_true]
    constructor
    · intro hd
      exact absurd hd.1 (by norm_num [scenarioCRecord])
    · intro hd
      exact absurd hd.1 (by norm_num [scenarioCRecord])
  have honset := (claim2_degradation_onset scenarioCRecords _ ha).1
    [scenarioCRecord 1 30, scenarioCRecord 2 29]
    (scenarioCRecord 4 28) (scenarioCRecord 8 15) [] hsort hdrop hchain
  rw [ha]
  show some ({ max_streams := 8, best_config := scenarioCRecord 8 15,
               bottleneck_at_streams := bottleneckScan 8 (sortByKey scenarioCRecords),
               total_results := 4 } : DeviceAnalysis).bottleneck_at_streams = some 4
  rw [honset]
  rfl

/-! ### Claim C5 -/

theorem sweepInner_attempts_nostop (oracle : ℕ → ℕ → WorkloadOutcome)
    (device : String) (video_files : List String) (fps_target : ℚ) (l : List ℕ)
    (h : ∀ m ∈ l,
      earlyStopB m (trialStreamResults (oracle m) device fps_target m video_files)
        = false) :
    (sweepInner oracle device video_files fps_target l).2 = l := by
  induction l with
  | nil => rfl
  | cons n ns ih =>
    simp only [sweepInner, h n (List.mem_cons_self _ _), Bool.false_eq_true, if_false]
    exact congrArg (n :: ·) (ih fun m hm => h m (List.mem_cons_of_mem _ hm))

theorem sweepInner_attempts_stop (oracle : ℕ → ℕ → WorkloadOutcome)
    (device : String) (video_files : List String) (fps_target : ℚ)
    (l₁ : List ℕ) (n : ℕ) (l₂ : List ℕ)
    (h₁ : ∀ m ∈ l₁,
      earlyStopB m (trialStreamResults (oracle m) device fps_target m video_files)
        = false)
    (h₂ : earlyStopB n (trialStreamResults (oracle n) device fps_target n video_files)
        = true) :
    (sweepInner oracle device video_files fps_target (l₁ ++ n :: l₂)).2 = l₁ ++ [n] := by
  induction l₁ with
  | nil =>
    simp only [List.nil_append, sweepInner, h₂, if_true]
  | cons m t ih =>
    simp only [List.cons_append, sweepInner, h₁ m (List.mem_cons_self _ _),
      Bool.false_eq_true, if_false]
    exact congrArg (m :: ·) (ih fun k hk => h₁ k (List.mem_cons_of_mem _ hk))

theorem sweepInner_attempts_cons (oracle : ℕ → ℕ → WorkloadOutcome)
    (device : String) (video_files : List String) (fps_target : ℚ)
    (n : ℕ) (ns : List ℕ) :
    ∃ l, (sweepInner oracle device video_files fps_target (n :: ns)).2 = n :: l := by
  simp only [sweepInner]
  by_cases h : earlyStopB n
      (trialStreamResults (oracle n) device fps_target n video_files) = true
  · rw [if_pos h]
    exact ⟨[], rfl⟩
  · rw [if_neg h]
    exact ⟨_, rfl⟩

/-- Claim C5: whenever a trial of the sweep at `(t, n)` has
`successful_count < n * 0.5` and no earlier concurrency of the same target
stopped, the controller attempts exactly concurrency `1 .. n` for target `t`
(breaking the inner loop at `n`), and the next target `t2` still starts again
from concurrency 1, running all the way to `max_streams` when no early stop
fires for it. -/
theorem claim5_early_stop_scope (oracle : ℚ → ℕ → ℕ → WorkloadOutcome)
    (device : String) (video_files : List String) (max_streams : ℕ)
    (t t2 : ℚ) (ts : List ℚ) (n : ℕ)
    (hn : 1 ≤ n) (hmax : n ≤ max_streams)
    (hstop : earlyStopB n (trialStreamResults (oracle t n) device t n video_files)
        = true)
    (hfirst : ∀ m, m < n → 1 ≤ m →
      earlyStopB m (trialStreamResults (oracle t m) device t m video_files)
        = false) :
    (benchmark_streams oracle device video_files max_streams (t :: t2 :: ts)).2
      = (List.range' 1 n).map (fun k => (t, k))
        ++ (benchmark_streams oracle device video_files max_streams (t2 :: ts)).2
  ∧ (1 ≤ max_streams →
      ((benchmark_streams oracle device video_files max_streams (t2 :: ts)).2).head?
        = some (t2, 1))
  ∧ ((∀ m, m < max_streams + 1 → 1 ≤ m →
        earlyStopB m (trialStreamResults (oracle t2 m) device t2 m video_files)
          = false) →
      (benchmark_streams oracle device video_files max_streams (t2 :: ts)).2
        = (List.range' 1 max_streams).map (fun k => (t2, k))
          ++ (benchmark_streams oracle device video_files max_streams ts).2) := by
  have hsplitrange : List.range' 1 max_streams
      = List.range' 1 (n - 1) ++ n :: List.range' (n + 1) (max_streams - n) := by
    have h1 : List.range' 1 (n - 1) ++ List.range' (1 + (n - 1)) (max_streams - (n - 1))
        = List.range' 1 ((max_streams - (n - 1)) + (n - 1)) :=
      List.range'_append_1 1 (n - 1) (max_streams - (n - 1))
    have h2 : 1 + (n - 1) = n := by omega
    have h3 : (max_streams - (n - 1)) + (n - 1) = max_streams := by omega
    have h4 : max_streams - (n - 1) = (max_streams - n) + 1 := by omega
    rw [h2, h3, h4] at h1
    rw [← h1, List.range'_succ]
  refine ⟨?_, fun hm1 => ?_, fun hns => ?_⟩
  · simp only [benchmark_streams]
    have hatt : (sweepInner (oracle t) device video_files t
        (List.range' 1 max_streams)).2 = List.range' 1 (n - 1) ++ [n] := by
      rw [hsplitrange]
      apply sweepInner_attempts_stop
      · intro m hm
        rw [List.mem_range'_1] at hm
        exact hfirst m (by omega) hm.1
      · exact hstop
    rw [hatt]
    have hconcat : List.range' 1 (n - 1) ++ [n] = List.range' 1 n := by
      have := List.range'_1_concat 1 (n - 1)
      have h5 : (n - 1) + 1 = n := by omega
      have h6 : 1 + (n - 1) = n := by omega
      rw [h5, h6] at this
      exact this.symm
    rw [hconcat]
  · cases hmx : max_streams with
    | zero => omega
    | succ k =>
      simp only [benchmark_streams]
      rw [List.range'_succ]
      obtain ⟨l, hl⟩ := sweepInner_attempts_cons (oracle t2) device video_files t2
        1 (List.range' 2 k)
      rw [hl]
      rfl
  · simp only [benchmark_streams]
    have hatt : (sweepInner (oracle t2) device video_files t2
        (List.range' 1 max_streams)).2 = List.range' 1 max_streams := by
      apply sweepInner_attempts_nostop
      intro m hm
      rw [List.mem_range'_1] at hm
      exact hns m (by omega) hm.1
    rw [hatt]

/-- Workload oracle for the C5 witness: at target rate 30 every stream of
any trial with concurrency at least 3 raises, so the trial at `(30, 3)` has
0 successes (0 < 1.5); every other trial fully succeeds. -/
def saturatingOracle : ℚ → ℕ → ℕ → WorkloadOutcome := fun t n _ =>
  if t = 30 ∧ 3 ≤ n then .raises "overload" else .completes 60 2

/-- Witness for C5, the spec's Scenario B shape: early stop at target 30,
concurrency 3 cuts that target's inner loop to [1,2,3], while target 15
still runs from concurrency 1 all the way to `max_streams = 4`. -/
theorem claim5_witness :
    (benchmark_streams saturatingOracle "CPU" ["v.mp4"] 4 [30, 15]).2
      = [(30, 1), (30, 2), (30, 3), (15, 1), (15, 2), (15, 3), (15, 4)] := by
  have h := claim5_early_stop_scope saturatingOracle "CPU" ["v.mp4"] 4 30 15 [] 3
    (by norm_num) (by norm_num)
    (by norm_num [earlyStopB, trialStreamResults, run_single_stream,
      saturatingOracle, successfulStreams, List.range_succ])
    (by intro m hm h1
        interval_cases m <;>
          norm_num [earlyStopB, trialStreamResults, run_single_stream,
            saturatingOracle, successfulStreams, List.range_succ])
  have hns : ∀ m, m < 4 + 1 → 1 ≤ m →
      earlyStopB m (trialStreamResults (saturatingOracle 15 m) "CPU" 15 m ["v.mp4"])
        = false := by
    intro m hm h1
    interval_cases m <;>
      norm_num [earlyStopB, trialStreamResults, run_single_stream,
        saturatingOracle, successfulStreams, List.range_succ]
  rw [h.1, h.2.2 hns]
  norm_num [List.range', benchmark_streams]
